import Mathlib

/-!
Shallow embedding of `indra/newview/llthumbnailctrl.cpp` (the LLThumbnailCtrl
widget): its state, the `setValue` value-resolution operation, the per-frame
`draw` operation (modelled as the list of emitted drawing-layer calls plus the
state after the call), the `handleHover` operation and the destructor, together
with theorems checking the specification's claims against this embedding.
External collaborators (texture manager queries, the UI image registry, the
localization lookup, the base-class hover result and the privilege oracle) are
parameters of the operations.
-/

/-- A 128-bit identifier (LLUUID). The all-zero identifier is the null id. -/
structure UUID where
  val : Nat
deriving DecidableEq

def UUID.null : UUID := ⟨0⟩

def UUID.isNull (u : UUID) : Bool := u.val == 0

def UUID.notNull (u : UUID) : Bool := !u.isNull

/-- Predicate on characters: hexadecimal digit. -/
def isHexDigit (c : Char) : Bool :=
  c.isDigit || (('a' ≤ c) && (c ≤ 'f')) || (('A' ≤ c) && (c ≤ 'F'))

def hexDigitVal (c : Char) : Nat :=
  if c.isDigit then c.toNat - 48
  else if ('a' ≤ c) && (c ≤ 'f') then c.toNat - 87
  else if ('A' ≤ c) && (c ≤ 'F') then c.toNat - 55
  else 0

/-- Modelled from the spec: `LLUUID::validate` (lluuid.cpp is not part of the
excerpt). A string is a syntactically valid identifier when it has the
canonical 36-character form: hyphens at positions 8, 13, 18 and 23 and
hexadecimal digits everywhere else. -/
def uuidValidate (s : String) : Bool :=
  let cs := s.toList
  (cs.length == 36) &&
  ((List.range 36).all fun i =>
    match cs.get? i with
    | some c =>
      if (i == 8) || (i == 13) || (i == 18) || (i == 23) then c == '-' else isHexDigit c
    | none => false)

/-- Modelled from the spec: the `LLUUID(string)` constructor (lluuid.cpp is not
part of the excerpt). Parses the hexadecimal digits of the string, most
significant first, into the 128-bit value. -/
def uuidParse (s : String) : UUID :=
  ⟨((s.toList.filter isHexDigit).foldl (fun n c => n * 16 + hexDigitVal c) 0) % (2 ^ 128)⟩

/-- The polymorphic LLSD value as far as this widget distinguishes it:
null/undefined, string, 128-bit identifier, or any other variant. -/
inductive LLSD where
  | undef : LLSD
  | string : String → LLSD
  | uuid : UUID → LLSD
  | other : LLSD
deriving DecidableEq

def LLSD.isString : LLSD → Bool
  | .string _ => true
  | _ => false

def LLSD.isUUID : LLSD → Bool
  | .uuid _ => true
  | _ => false

def LLSD.asString : LLSD → String
  | .string s => s
  | _ => ""

def LLSD.asUUID : LLSD → UUID
  | .uuid u => u
  | _ => UUID.null

/-- Texture boost (priority) levels used by the widget. -/
inductive BoostLevel where
  | boostNone : BoostLevel
  | boostUI : BoostLevel
  | boostPreview : BoostLevel
deriving DecidableEq

/-- Fetch-type argument of `getFetchedTexture` (FTT_DEFAULT). -/
inductive FTType where
  | ftDefault : FTType
deriving DecidableEq

/-- Texture LOD class argument of `getFetchedTexture` (LOD_TEXTURE). -/
inductive TexLODClass where
  | lodTexture : TexLODClass
deriving DecidableEq

/-- The widget-visible configuration of a fetched-texture handle: the asset id
it was fetched with, its boost level, the discard level at which it was asked
to retain its raw image (`forceToSaveRawImage`), and its known draw size. -/
structure FetchedTexture where
  id : UUID
  boostLevel : BoostLevel
  savedRawDiscard : Option Nat
  knownDrawSize : Option (Int × Int)
deriving DecidableEq

/-- A named UI image handle from the registry; `underlyingFetchedID` is the id
of the underlying image when that image is itself a fetched texture. -/
structure UIImage where
  iname : String
  underlyingFetchedID : Option UUID
deriving DecidableEq

/-- Modelled from the spec: the texture manager's `getFetchedTexture` (the
texture manager is an external collaborator). It returns a handle for the
requested identifier with the requested boost level and no raw-image retention
or known draw size configured yet. -/
def getFetchedTexture (image_id : UUID) (_f : FTType) (_mip : Bool)
    (boost : BoostLevel) (_lod : TexLODClass) : FetchedTexture :=
  { id := image_id, boostLevel := boost, savedRawDiscard := none, knownDrawSize := none }

/-- The external environment: per-identifier texture-manager queries, the UI
image registry lookup, and the localization lookup. -/
structure TexEnv where
  texWidth : UUID → Int
  texHeight : UUID → Int
  texComponents : UUID → Nat
  texFullyLoaded : UUID → Bool
  texDiscardLevel : UUID → Int
  getUIImage : String → BoostLevel → Option UIImage
  transGetString : String → String

/-- RGBA color with rational channels. -/
structure Color where
  r : Rat
  g : Rat
  b : Rat
  a : Rat
deriving DecidableEq

/-- The `%` operator on LLColor4: scale the alpha channel. -/
def Color.modAlpha (c : Color) (x : Rat) : Color := { c with a := c.a * x }

def Color.grey : Color := ⟨1/2, 1/2, 1/2, 1⟩

def Color.black : Color := ⟨0, 0, 0, 1⟩

def Color.white : Color := ⟨1, 1, 1, 1⟩

def UI_VERTEX_COLOR : Color := Color.white

/-- An LLRect: left, top, right, bottom edges. -/
structure Rect where
  mLeft : Int
  mTop : Int
  mRight : Int
  mBottom : Int
deriving DecidableEq

def Rect.getWidth (r : Rect) : Int := r.mRight - r.mLeft

def Rect.getHeight (r : Rect) : Int := r.mTop - r.mBottom

/-- `LLRect::stretch(d)`: move every edge outward by `d` (inward for negative). -/
def Rect.stretch (r : Rect) (d : Int) : Rect :=
  ⟨r.mLeft - d, r.mTop + d, r.mRight + d, r.mBottom - d⟩

/-- The LLThumbnailCtrl widget state, including the base-class pieces the
source reads (stored value, enabled, focus, transparency). -/
structure Widget where
  rect : Rect
  mBorderColor : Color
  mBorderVisible : Bool
  mInteractable : Bool
  mShowLoadingPlaceholder : Bool
  mPriority : BoostLevel
  mLoadingPlaceholderString : String
  borderFocusHighlight : Bool
  enabled : Bool
  focused : Bool
  transparencyActive : Bool
  currentTransparency : Rat
  baseValue : LLSD
  mImageAssetID : UUID
  mTexturep : Option FetchedTexture
  mImagep : Option UIImage
deriving DecidableEq

/-- `LLThumbnailCtrl::setValue` (llthumbnailctrl.cpp lines 149-193): coerce an
identifier-shaped string to an identifier, store the coerced value at the base
class, reset the asset id and both handles, then resolve: a non-null identifier
fetches a texture and configures it (boost to `mPriority`, raw image saved at
discard 0, known draw size set to the natural width and height); a string asks
the UI image registry and records the underlying fetched texture's id when
there is one. -/
def setValue (env : TexEnv) (value : LLSD) (w : Widget) : Widget :=
  let tvalue : LLSD :=
    if value.isString && uuidValidate value.asString then
      LLSD.uuid (uuidParse value.asString)
    else value
  let w := { w with baseValue := tvalue,
                    mImageAssetID := UUID.null,
                    mTexturep := none,
                    mImagep := none }
  if tvalue.isUUID then
    let w := { w with mImageAssetID := tvalue.asUUID }
    if w.mImageAssetID.notNull then
      let t0 := getFetchedTexture w.mImageAssetID FTType.ftDefault true
                  BoostLevel.boostNone TexLODClass.lodTexture
      let t1 := { t0 with boostLevel := w.mPriority }
      let t2 := { t1 with savedRawDiscard := some 0 }
      let desired_draw_width := env.texWidth t2.id
      let desired_draw_height := env.texHeight t2.id
      let t3 := { t2 with knownDrawSize := some (desired_draw_width, desired_draw_height) }
      { w with mTexturep := some t3 }
    else w
  else if tvalue.isString then
    match env.getUIImage tvalue.asString BoostLevel.boostUI with
    | some img =>
      let w := { w with mImagep := some img }
      match img.underlyingFetchedID with
      | some tid => { w with mImageAssetID := tid }
      | none => w
    | none => w
  else w

/-- A drawing-layer call emitted by `draw`, in order. `rect2d r c filled` is
`gl_rect_2d`; `checkerboard` is `gl_rect_2d_checkerboard`; `scaledImage` is
`gl_draw_scaled_image` (left, bottom, width, height, texture id, color);
`uiImageDraw` is `LLUIImage::draw`; `drawX` is `gl_draw_x`; `renderText` is the
font's `renderUTF8` (string, x, y, color); `baseDraw` is `LLUICtrl::draw`. -/
inductive RenderOp where
  | rect2d : Rect → Color → Bool → RenderOp
  | checkerboard : Rect → Rat → RenderOp
  | scaledImage : Int → Int → Int → Int → UUID → Color → RenderOp
  | uiImageDraw : Rect → UIImage → Color → RenderOp
  | drawX : Rect → Color → RenderOp
  | renderText : String → Int → Int → Color → RenderOp
  | baseDraw : RenderOp
deriving DecidableEq

/-- The working rectangle of `draw`: the local rect, shrunk by one pixel on
each side when the border is visible (`draw_rect.stretch(-1)`). -/
def workRect (w : Widget) : Rect :=
  if w.mBorderVisible then w.rect.stretch (-1) else w.rect

/-- The alpha used by `draw`: 1 when the transparency type is TT_ACTIVE, else
the current transparency. -/
def drawAlpha (w : Widget) : Rat :=
  if w.transparencyActive then 1 else w.currentTransparency

/-- `LLThumbnailCtrl::draw` (llthumbnailctrl.cpp lines 82-145): optional border
stroke and rectangle shrink; then the image path (fetched texture with optional
checkerboard under a 4-component texture, then the scaled blit and the
known-draw-size update; else the ui image; else the grey-fill-plus-X fallback);
then the loading overlay when a fetched texture is present, the placeholder is
enabled, the texture is not fully loaded, and its discard level exceeds 1 or
the agent is godlike; finally the base-class draw. Returns the widget state
after the call and the list of emitted drawing calls. -/
def draw (env : TexEnv) (godlike : Bool) (w : Widget) : Widget × List RenderOp :=
  let draw_rect := workRect w
  let alpha := drawAlpha w
  let wb := if w.mBorderVisible then { w with borderFocusHighlight := w.focused } else w
  let borderOps : List RenderOp :=
    if w.mBorderVisible then [RenderOp.rect2d w.rect w.mBorderColor false] else []
  match w.mTexturep with
  | some t =>
    let cbOps : List RenderOp :=
      if env.texComponents t.id == 4 then [RenderOp.checkerboard draw_rect alpha] else []
    let blitOp := RenderOp.scaledImage draw_rect.mLeft draw_rect.mBottom
      draw_rect.getWidth draw_rect.getHeight t.id (UI_VERTEX_COLOR.modAlpha alpha)
    let overlayOps : List RenderOp :=
      if w.mShowLoadingPlaceholder && !(env.texFullyLoaded t.id) then
        if (1 < env.texDiscardLevel t.id) || godlike then
          [RenderOp.renderText w.mLoadingPlaceholderString
            (draw_rect.mLeft + 3) (draw_rect.mTop - 25) Color.white]
        else []
      else []
    let tKnown := { t with knownDrawSize := some (draw_rect.getWidth, draw_rect.getHeight) }
    ({ wb with mTexturep := some tKnown },
     borderOps ++ (cbOps ++ [blitOp]) ++ overlayOps ++ [RenderOp.baseDraw])
  | none =>
    match w.mImagep with
    | some img =>
      (wb, borderOps ++ [RenderOp.uiImageDraw w.rect img (UI_VERTEX_COLOR.modAlpha alpha)]
        ++ [RenderOp.baseDraw])
    | none =>
      (wb, borderOps ++ [RenderOp.rect2d draw_rect (Color.grey.modAlpha alpha) true,
        RenderOp.drawX draw_rect Color.black] ++ [RenderOp.baseDraw])

/-- Cursor shapes the widget can request from the host window. -/
inductive Cursor where
  | uiCursorHand : Cursor
deriving DecidableEq

/-- `LLThumbnailCtrl::handleHover` (llthumbnailctrl.cpp lines 195-203): when
interactable and enabled, set the hand cursor and report handled; otherwise
defer to the base class (`baseHover`) and request no cursor change. Returns
the handled flag and the cursor request. -/
def handleHover (baseHover : Int → Int → Nat → Bool) (x y : Int) (mask : Nat)
    (w : Widget) : Bool × Option Cursor :=
  if w.mInteractable && w.enabled then (true, some Cursor.uiCursorHand)
  else (baseHover x y mask, none)

/-- `LLThumbnailCtrl::~LLThumbnailCtrl` (llthumbnailctrl.cpp lines 75-79):
release both image handles. -/
def destructor (w : Widget) : Widget := { w with mTexturep := none, mImagep := none }

/-- An optionally-provided construction parameter: its registered name, its
default, and its provided value when present. -/
structure OptParam (α : Type) where
  pname : String
  dflt : α
  pvalue : Option α
deriving DecidableEq

def OptParam.get {α : Type} (p : OptParam α) : α := p.pvalue.getD p.dflt

def OptParam.isProvided {α : Type} (p : OptParam α) : Bool := p.pvalue.isSome

/-- `LLThumbnailCtrl::Params`: the construction parameter bundle. -/
structure Params where
  border : OptParam Unit
  border_color : OptParam Color
  image_name : OptParam LLSD
  border_visible : OptParam Bool
  interactable : OptParam Bool
  show_loading : OptParam Bool
deriving DecidableEq

/-- `LLThumbnailCtrl::Params::Params` (llthumbnailctrl.cpp lines 43-50): the
registered option names and defaults. Note the `border_visible` field is
registered under the name "show_visible". The `border_color` default is the
framework's; black stands in for it here. -/
def Params.init : Params :=
  { border := ⟨"border", (), none⟩
  , border_color := ⟨"border_color", Color.black, none⟩
  , image_name := ⟨"image_name", LLSD.undef, none⟩
  , border_visible := ⟨"show_visible", false, none⟩
  , interactable := ⟨"interactable", false, none⟩
  , show_loading := ⟨"show_loading", true, none⟩ }

/-- The option names the parameter bundle recognizes. -/
def Params.recognizedNames (p : Params) : List String :=
  [p.border.pname, p.border_color.pname, p.image_name.pname,
   p.border_visible.pname, p.interactable.pname, p.show_loading.pname]

/-- `LLThumbnailCtrl::LLThumbnailCtrl` (llthumbnailctrl.cpp lines 52-73): copy
the parameters, fix the priority at BOOST_PREVIEW, resolve the loading label,
and when `image_name` was provided call `setValue` with it. Base-class state
starts enabled, unfocused, with inactive transparency. -/
def construct (env : TexEnv) (rect : Rect) (p : Params) : Widget :=
  let w : Widget :=
    { rect := rect
    , mBorderColor := p.border_color.get
    , mBorderVisible := p.border_visible.get
    , mInteractable := p.interactable.get
    , mShowLoadingPlaceholder := p.show_loading.get
    , mPriority := BoostLevel.boostPreview
    , mLoadingPlaceholderString := env.transGetString "texture_loading"
    , borderFocusHighlight := false
    , enabled := true
    , focused := false
    , transparencyActive := false
    , currentTransparency := 1
    , baseValue := LLSD.undef
    , mImageAssetID := UUID.null
    , mTexturep := none
    , mImagep := none }
  if p.image_name.isProvided then setValue env p.image_name.get w else w

/-- Dereference a possibly-null texture handle; an error models a null-pointer
dereference. -/
def derefTexture : Option FetchedTexture → Except String FetchedTexture
  | some t => Except.ok t
  | none => Except.error "null texture handle dereference"

/-- Dereference a possibly-null ui-image handle; an error models a null-pointer
dereference. -/
def derefImage : Option UIImage → Except String UIImage
  | some i => Except.ok i
  | none => Except.error "null image handle dereference"

/-- `setValue` with every handle dereference made explicit: each `mTexturep->`
or `mImagep->` access in the source goes through `derefTexture`/`derefImage`
and surfaces a null dereference as an error value. -/
def setValueE (env : TexEnv) (value : LLSD) (w : Widget) : Except String Widget :=
  let tvalue : LLSD :=
    if value.isString && uuidValidate value.asString then
      LLSD.uuid (uuidParse value.asString)
    else value
  let w := { w with baseValue := tvalue,
                    mImageAssetID := UUID.null,
                    mTexturep := none,
                    mImagep := none }
  if tvalue.isUUID then
    let w := { w with mImageAssetID := tvalue.asUUID }
    if w.mImageAssetID.notNull then
      let fetched := getFetchedTexture w.mImageAssetID FTType.ftDefault true
        BoostLevel.boostNone TexLODClass.lodTexture
      let w := { w with mTexturep := some fetched }
      match derefTexture w.mTexturep with
      | Except.error e => Except.error e
      | Except.ok t =>
        let w := { w with mTexturep := some ({ t with boostLevel := w.mPriority }) }
        match derefTexture w.mTexturep with
        | Except.error e => Except.error e
        | Except.ok t =>
          let w := { w with mTexturep := some ({ t with savedRawDiscard := some 0 }) }
          match derefTexture w.mTexturep with
          | Except.error e => Except.error e
          | Except.ok t =>
            let desiredSize := some (env.texWidth t.id, env.texHeight t.id)
            let tKnown := { t with knownDrawSize := desiredSize }
            let w := { w with mTexturep := some tKnown }
            Except.ok w
    else Except.ok w
  else if tvalue.isString then
    match env.getUIImage tvalue.asString BoostLevel.boostUI with
    | some img =>
      let w := { w with mImagep := some img }
      match img.underlyingFetchedID with
      | some tid => Except.ok { w with mImageAssetID := tid }
      | none => Except.ok w
    | none => Except.ok w
  else Except.ok w

/-- `draw` with every handle dereference made explicit, mirroring the source's
null-pointer guards (`if (mTexturep)`, `else if (mImagep.notNull())`,
`mTexturep.notNull() && ...`). -/
def drawE (env : TexEnv) (godlike : Bool) (w : Widget) :
    Except String (Widget × List RenderOp) :=
  let draw_rect := workRect w
  let alpha := drawAlpha w
  let wb := if w.mBorderVisible then { w with borderFocusHighlight := w.focused } else w
  let borderOps : List RenderOp :=
    if w.mBorderVisible then [RenderOp.rect2d w.rect w.mBorderColor false] else []
  let pairE : Except String (Widget × List RenderOp) :=
    if w.mTexturep.isSome then
      match derefTexture w.mTexturep with
      | Except.error e => Except.error e
      | Except.ok t =>
        let cbOps : List RenderOp :=
          if env.texComponents t.id == 4 then [RenderOp.checkerboard draw_rect alpha] else []
        let blitOp := RenderOp.scaledImage draw_rect.mLeft draw_rect.mBottom
          draw_rect.getWidth draw_rect.getHeight t.id (UI_VERTEX_COLOR.modAlpha alpha)
        let tKnown := { t with knownDrawSize := some (draw_rect.getWidth, draw_rect.getHeight) }
        Except.ok (({ wb with mTexturep := some tKnown } : Widget), cbOps ++ [blitOp])
    else if w.mImagep.isSome then
      match derefImage w.mImagep with
      | Except.error e => Except.error e
      | Except.ok img =>
        Except.ok (wb, [RenderOp.uiImageDraw w.rect img (UI_VERTEX_COLOR.modAlpha alpha)])
    else
      Except.ok (wb, [RenderOp.rect2d draw_rect (Color.grey.modAlpha alpha) true,
        RenderOp.drawX draw_rect Color.black])
  match pairE with
  | Except.error e => Except.error e
  | Except.ok pair =>
    let overlayE : Except String (List RenderOp) :=
      if w.mTexturep.isSome && w.mShowLoadingPlaceholder then
        match derefTexture w.mTexturep with
        | Except.error e => Except.error e
        | Except.ok t =>
          if !(env.texFullyLoaded t.id) then
            if (1 < env.texDiscardLevel t.id) || godlike then
              Except.ok [RenderOp.renderText w.mLoadingPlaceholderString
                (draw_rect.mLeft + 3) (draw_rect.mTop - 25) Color.white]
            else Except.ok ([] : List RenderOp)
          else Except.ok ([] : List RenderOp)
      else Except.ok ([] : List RenderOp)
    match overlayE with
    | Except.error e => Except.error e
    | Except.ok overlayOps =>
      Except.ok (pair.1, borderOps ++ pair.2 ++ overlayOps ++ [RenderOp.baseDraw])

/-- A concrete environment for witnesses: every texture is 64 by 64 with four
components, not yet fully loaded, at discard level 3; the registry has no
images; localization is the identity. -/
def defaultEnv : TexEnv :=
  { texWidth := fun _ => 64
  , texHeight := fun _ => 64
  , texComponents := fun _ => 4
  , texFullyLoaded := fun _ => false
  , texDiscardLevel := fun _ => 3
  , getUIImage := fun _ _ => none
  , transGetString := fun _ => "Loading..." }

def rect0 : Rect := ⟨0, 32, 32, 0⟩

/-- A widget constructed from the default parameters: no image, border off. -/
def widget0 : Widget := construct defaultEnv rect0 Params.init

/-- The widget after setting a concrete non-null identifier. -/
def widgetTex : Widget := setValue defaultEnv (LLSD.uuid (UUID.mk 1)) widget0

/-- The fetched-texture handle `widgetTex` holds. -/
def tex1 : FetchedTexture :=
  { id := UUID.mk 1, boostLevel := BoostLevel.boostPreview
  , savedRawDiscard := some 0, knownDrawSize := some (64, 64) }

/-- A concrete base-class hover behavior for witnesses. -/
def bh0 : Int → Int → Nat → Bool := fun _ _ _ => false

/-- The all-zeros identifier string: syntactically valid, parses to the null
identifier. -/
def nullUuidString : String := "00000000-0000-0000-0000-000000000000"

/-- A concrete non-null identifier string. -/
def uuidStr1 : String := "550e8400-e29b-41d4-a716-446655440000"

/-- Helper: `setValue` on an identifier stores the identifier at the base
class, never sets the ui-image handle, and produces a fetched-texture handle
exactly when the identifier is non-null. -/
theorem setValue_uuid_base (env : TexEnv) (w : Widget) (u : UUID) :
    (setValue env (LLSD.uuid u) w).baseValue = LLSD.uuid u ∧
    (setValue env (LLSD.uuid u) w).mImagep = none ∧
    (setValue env (LLSD.uuid u) w).mTexturep.isSome = !u.isNull := by
  cases hn : u.isNull <;>
    simp [setValue, LLSD.isString, LLSD.isUUID, LLSD.asUUID, UUID.notNull, hn]

/-- C1: after `setValue` with a non-null identifier, the image asset id equals
that identifier and the fetched-texture handle is present, at boost level
PREVIEW, retaining its raw image at discard 0, with known draw size equal to
the texture's natural width and height. -/
theorem setValue_uuid_configures (env : TexEnv) (w : Widget) (id : UUID)
    (hp : w.mPriority = BoostLevel.boostPreview) (hid : id.isNull = false) :
    (setValue env (LLSD.uuid id) w).mImageAssetID = id ∧
    (setValue env (LLSD.uuid id) w).mTexturep =
      some { id := id, boostLevel := BoostLevel.boostPreview,
             savedRawDiscard := some 0,
             knownDrawSize := some (env.texWidth id, env.texHeight id) } := by
  simp [setValue, LLSD.isString, LLSD.isUUID, LLSD.asUUID, UUID.notNull, hid, hp,
    getFetchedTexture]

/-- Witness for C1 at a concrete non-null identifier and widget. -/
theorem setValue_uuid_configures_witness :
    (setValue defaultEnv (LLSD.uuid (UUID.mk 1)) widget0).mImageAssetID = UUID.mk 1 ∧
    (setValue defaultEnv (LLSD.uuid (UUID.mk 1)) widget0).mTexturep =
      some { id := UUID.mk 1, boostLevel := BoostLevel.boostPreview,
             savedRawDiscard := some 0,
             knownDrawSize := some (defaultEnv.texWidth (UUID.mk 1),
               defaultEnv.texHeight (UUID.mk 1)) } :=
  setValue_uuid_configures defaultEnv widget0 (UUID.mk 1) rfl rfl

/-- C2 counterexample: the all-zeros identifier string is syntactically valid
and parses to the null identifier, yet `setValue` on it yields no
fetched-texture handle (and no ui-image handle), contradicting the claim that
a fetched-texture handle results for every validating string. -/
theorem setValue_null_uuid_string_no_handle :
    uuidValidate nullUuidString = true ∧
    uuidParse nullUuidString = UUID.null ∧
    (setValue defaultEnv (LLSD.string nullUuidString) widget0).mTexturep = none ∧
    (setValue defaultEnv (LLSD.string nullUuidString) widget0).mImagep = none :=
  ⟨by decide, by decide, by decide, by decide⟩

/-- C2 (amended): for every string that validates as an identifier, the state
after `setValue` on the string equals the state after `setValue` on the parsed
identifier; the base-class stored value is the identifier (never the string); a
ui-image handle never results; and a fetched-texture handle results whenever
the parsed identifier is non-null. -/
theorem setValue_string_coerces_to_uuid (env : TexEnv) (w : Widget) (s : String)
    (hv : uuidValidate s = true) :
    setValue env (LLSD.string s) w = setValue env (LLSD.uuid (uuidParse s)) w ∧
    (setValue env (LLSD.string s) w).baseValue = LLSD.uuid (uuidParse s) ∧
    (setValue env (LLSD.string s) w).mImagep = none ∧
    ((uuidParse s).isNull = false →
      (setValue env (LLSD.string s) w).mTexturep.isSome = true) := by
  have h1 : setValue env (LLSD.string s) w = setValue env (LLSD.uuid (uuidParse s)) w := by
    simp [setValue, LLSD.isString, LLSD.asString, hv]
  have h2 := setValue_uuid_base env w (uuidParse s)
  refine ⟨h1, ?_, ?_, ?_⟩
  · rw [h1]; exact h2.1
  · rw [h1]; exact h2.2.1
  · intro hn; rw [h1, h2.2.2, hn]; rfl

/-- Witness for C2's amended theorem at a concrete validating string. -/
theorem setValue_string_coerces_to_uuid_witness :
    setValue defaultEnv (LLSD.string uuidStr1) widget0 =
      setValue defaultEnv (LLSD.uuid (uuidParse uuidStr1)) widget0 ∧
    (setValue defaultEnv (LLSD.string uuidStr1) widget0).baseValue =
      LLSD.uuid (uuidParse uuidStr1) ∧
    (setValue defaultEnv (LLSD.string uuidStr1) widget0).mImagep = none ∧
    (setValue defaultEnv (LLSD.string uuidStr1) widget0).mTexturep.isSome = true := by
  have h := setValue_string_coerces_to_uuid defaultEnv widget0 uuidStr1 (by decide)
  exact ⟨h.1, h.2.1, h.2.2.1, h.2.2.2 (by decide)⟩

/-- Helper: a single `setValue` call, from any state, leaves at most one of the
two image handles non-null. -/
theorem setValue_step_at_most_one (env : TexEnv) (v : LLSD) (w : Widget) :
    (setValue env v w).mTexturep = none ∨ (setValue env v w).mImagep = none := by
  rcases v with _ | s | u | _
  · left; rfl
  · cases hv : uuidValidate s with
    | true =>
      right
      cases hn : (uuidParse s).isNull <;>
        simp [setValue, LLSD.isString, LLSD.asString, LLSD.isUUID, LLSD.asUUID,
          UUID.notNull, hv, hn]
    | false =>
      left
      cases hreg : env.getUIImage s BoostLevel.boostUI with
      | none => simp [setValue, LLSD.isString, LLSD.asString, LLSD.isUUID, hv, hreg]
      | some img =>
        cases hu : img.underlyingFetchedID <;>
          simp [setValue, LLSD.isString, LLSD.asString, LLSD.isUUID, hv, hreg, hu]
  · right
    cases hn : u.isNull <;>
      simp [setValue, LLSD.isString, LLSD.isUUID, LLSD.asUUID, UUID.notNull, hn]
  · left; rfl

/-- Helper: every state in the `scanl` of `setValue` calls from a state
satisfying the at-most-one-handle invariant satisfies it as well. -/
theorem mem_scanl_setValue_at_most_one (env : TexEnv) (vs : List LLSD) (b s : Widget)
    (hb : b.mTexturep = none ∨ b.mImagep = none)
    (hs : s ∈ List.scanl (fun w v => setValue env v w) b vs) :
    s.mTexturep = none ∨ s.mImagep = none := by
  induction vs generalizing b with
  | nil =>
    rw [List.scanl_nil, List.mem_singleton] at hs
    exact hs ▸ hb
  | cons v vs ih =>
    rw [List.scanl_cons] at hs
    rcases List.mem_cons.mp hs with h | h
    · exact h ▸ hb
    · exact ih (setValue env v b) (setValue_step_at_most_one env v b) h

/-- C3: along any sequence of `setValue` calls with arbitrary values, after
each call at most one of the fetched-texture handle and the ui-image handle is
non-null. -/
theorem setValue_seq_at_most_one_handle (env : TexEnv) (vs : List LLSD)
    (w s : Widget)
    (hs : s ∈ (List.scanl (fun w v => setValue env v w) w vs).tail) :
    s.mTexturep = none ∨ s.mImagep = none := by
  cases vs with
  | nil =>
    rw [List.scanl_nil] at hs
    simp at hs
  | cons v vs =>
    rw [List.scanl_cons] at hs
    exact mem_scanl_setValue_at_most_one env vs (setValue env v w) s
      (setValue_step_at_most_one env v w) hs

/-- Witness for C3 on a concrete two-call sequence. -/
theorem setValue_seq_at_most_one_handle_witness :
    (setValue defaultEnv LLSD.undef widgetTex).mTexturep = none ∨
    (setValue defaultEnv LLSD.undef widgetTex).mImagep = none :=
  setValue_seq_at_most_one_handle defaultEnv
    [LLSD.uuid (UUID.mk 1), LLSD.undef] widget0
    (setValue defaultEnv LLSD.undef widgetTex) (by simp [List.scanl, widgetTex])

/-- C4: the loading overlay text is rendered by `draw` exactly when a
fetched-texture handle is present, the show-loading flag is set, the texture
is not fully loaded, and either its discard level exceeds 1 or the privilege
oracle reports the session elevated. -/
theorem draw_loading_overlay_iff (env : TexEnv) (godlike : Bool) (w : Widget) :
    (∃ s x y c, RenderOp.renderText s x y c ∈ (draw env godlike w).2) ↔
    (∃ t, w.mTexturep = some t ∧ w.mShowLoadingPlaceholder = true ∧
      env.texFullyLoaded t.id = false ∧
      (1 < env.texDiscardLevel t.id ∨ godlike = true)) := by
  cases htex : w.mTexturep with
  | none =>
    cases himg : w.mImagep with
    | none =>
      cases hb : w.mBorderVisible <;> simp [draw, htex, himg, hb]
    | some img =>
      cases hb : w.mBorderVisible <;> simp [draw, htex, himg, hb]
  | some t =>
    cases hb : w.mBorderVisible <;>
    cases hc : env.texComponents t.id == 4 <;>
    cases hs : w.mShowLoadingPlaceholder <;>
    cases hf : env.texFullyLoaded t.id <;>
    cases hd : ((1 < env.texDiscardLevel t.id : Bool) || godlike) <;>
    simp_all [draw, htex, hb, hc, hs, hf, hd, decide_eq_true_eq]

/-- C5: when a fetched-texture handle is present, the emitted draw calls split
around exactly one scaled blit of that texture into the working rectangle; the
checkerboard fill of the working rectangle occurs before the blit exactly when
the texture has 4 components, and never after it. -/
theorem draw_checkerboard_iff_four_components (env : TexEnv) (godlike : Bool)
    (w : Widget) (t : FetchedTexture) (h : w.mTexturep = some t) :
    ∃ l1 l2 c,
      (draw env godlike w).2 = l1 ++ RenderOp.scaledImage (workRect w).mLeft
        (workRect w).mBottom (workRect w).getWidth (workRect w).getHeight t.id c :: l2 ∧
      ((RenderOp.checkerboard (workRect w) (drawAlpha w) ∈ l1) ↔
        env.texComponents t.id = 4) ∧
      (∀ r a, RenderOp.checkerboard r a ∉ l2) := by
  refine ⟨(if w.mBorderVisible then [RenderOp.rect2d w.rect w.mBorderColor false] else []) ++
      (if env.texComponents t.id == 4 then
        [RenderOp.checkerboard (workRect w) (drawAlpha w)] else []),
    (if w.mShowLoadingPlaceholder && !(env.texFullyLoaded t.id) then
        if (1 < env.texDiscardLevel t.id) || godlike then
          [RenderOp.renderText w.mLoadingPlaceholderString
            ((workRect w).mLeft + 3) ((workRect w).mTop - 25) Color.white]
        else []
      else []) ++ [RenderOp.baseDraw],
    UI_VERTEX_COLOR.modAlpha (drawAlpha w), ?_, ?_, ?_⟩
  · simp [draw, h]
  · cases hb : w.mBorderVisible <;> cases hc : env.texComponents t.id == 4 <;>
      simp_all [hb, hc]
  · intro r a
    cases hcond : (w.mShowLoadingPlaceholder && !(env.texFullyLoaded t.id)) <;>
      cases hd : ((1 < env.texDiscardLevel t.id : Bool) || godlike) <;>
      simp [hcond, hd]

/-- Witness for C5 at a concrete widget holding a texture. -/
theorem draw_checkerboard_iff_four_components_witness :
    ∃ l1 l2 c,
      (draw defaultEnv false widgetTex).2 = l1 ++ RenderOp.scaledImage
        (workRect widgetTex).mLeft (workRect widgetTex).mBottom
        (workRect widgetTex).getWidth (workRect widgetTex).getHeight tex1.id c :: l2 ∧
      ((RenderOp.checkerboard (workRect widgetTex) (drawAlpha widgetTex) ∈ l1) ↔
        defaultEnv.texComponents tex1.id = 4) ∧
      (∀ r a, RenderOp.checkerboard r a ∉ l2) :=
  draw_checkerboard_iff_four_components defaultEnv false widgetTex tex1 rfl

/-- C6: `handleHover` reports the event handled and requests the hand cursor
exactly when the widget is interactable and enabled; otherwise it defers to
the base-class behavior and requests no cursor change. -/
theorem handleHover_hand_cursor_iff (bh : Int → Int → Nat → Bool) (x y : Int)
    (mask : Nat) (w : Widget) :
    (((handleHover bh x y mask w).1 = true ∧
      (handleHover bh x y mask w).2 = some Cursor.uiCursorHand) ↔
      (w.mInteractable = true ∧ w.enabled = true)) ∧
    ((w.mInteractable && w.enabled) = false →
      handleHover bh x y mask w = (bh x y mask, none)) := by
  cases hi : w.mInteractable <;> cases he : w.enabled <;>
    simp [handleHover, hi, he]

/-- Witness for C6 at a concrete non-interactable widget: the call defers to
the base-class result and requests no cursor. -/
theorem handleHover_hand_cursor_iff_witness :
    handleHover bh0 1 2 0 widget0 = (bh0 1 2 0, none) :=
  (handleHover_hand_cursor_iff bh0 1 2 0 widget0).2 (by decide)

/-- C7: when both image handles are null, `draw` emits exactly the optional
border stroke, the grey fill of the working rectangle, the X stroke, and the
base-class draw; in particular no image blit, no checkerboard and no loading
overlay. -/
theorem draw_fallback_exact (env : TexEnv) (godlike : Bool) (w : Widget)
    (ht : w.mTexturep = none) (hi : w.mImagep = none) :
    (draw env godlike w).2 =
      (if w.mBorderVisible then [RenderOp.rect2d w.rect w.mBorderColor false] else []) ++
      [RenderOp.rect2d (workRect w) (Color.grey.modAlpha (drawAlpha w)) true,
       RenderOp.drawX (workRect w) Color.black, RenderOp.baseDraw] := by
  simp [draw, ht, hi]

/-- Witness for C7 at a concrete widget with both handles null. -/
theorem draw_fallback_exact_witness :
    (draw defaultEnv false widget0).2 =
      (if widget0.mBorderVisible then
        [RenderOp.rect2d widget0.rect widget0.mBorderColor false] else []) ++
      [RenderOp.rect2d (workRect widget0) (Color.grey.modAlpha (drawAlpha widget0)) true,
       RenderOp.drawX (workRect widget0) Color.black, RenderOp.baseDraw] :=
  draw_fallback_exact defaultEnv false widget0 rfl rfl

/-- C8 counterexample: the parameter bundle does not recognize an option named
"border_visible"; the border-drawing option is registered under the name
"show_visible". -/
theorem params_border_visible_name_cex :
    ¬ ("border_visible" ∈ Params.init.recognizedNames) := by decide

/-- C8 (amended): the border-drawing option of the construction parameter
bundle is registered under the name "show_visible" (the field itself is called
`border_visible`), defaults to false when unprovided, and controls whether the
border is drawn: construction copies it into the widget, and `draw` emits an
unfilled rectangle stroke exactly when the copied flag is set. -/
theorem params_show_visible_option :
    Params.init.border_visible.pname = "show_visible" ∧
    Params.init.border_visible.dflt = false ∧
    Params.init.border_visible.pvalue = none ∧
    "show_visible" ∈ Params.init.recognizedNames ∧
    (∀ env rect p, (construct env rect p).mBorderVisible = p.border_visible.get) ∧
    (∀ env godlike w,
      (∃ r c, RenderOp.rect2d r c false ∈ (draw env godlike w).2) ↔
        w.mBorderVisible = true) := by
  refine ⟨rfl, rfl, rfl, by decide, ?_, ?_⟩
  · intro env rect p
    by_cases hp : p.image_name.isProvided = true
    · have hset : ∀ v w, (setValue env v w).mBorderVisible = w.mBorderVisible := by
        intro v w
        rcases v with _ | s | u | _
        · rfl
        · cases hv : uuidValidate s with
          | true =>
            cases hn : (uuidParse s).isNull <;>
              simp [setValue, LLSD.isString, LLSD.asString, LLSD.isUUID, LLSD.asUUID,
                UUID.notNull, hv, hn]
          | false =>
            cases hreg : env.getUIImage s BoostLevel.boostUI with
            | none => simp [setValue, LLSD.isString, LLSD.asString, LLSD.isUUID, hv, hreg]
            | some img =>
              cases hu : img.underlyingFetchedID <;>
                simp [setValue, LLSD.isString, LLSD.asString, LLSD.isUUID, hv, hreg, hu]
        · cases hn : u.isNull <;>
            simp [setValue, LLSD.isString, LLSD.isUUID, LLSD.asUUID, UUID.notNull, hn]
        · rfl
      simp [construct, hp, hset]
    · simp [construct, hp]
  · intro env godlike w
    cases htex : w.mTexturep with
    | none =>
      cases himg : w.mImagep with
      | none => cases hb : w.mBorderVisible <;> simp [draw, htex, himg, hb]
      | some img => cases hb : w.mBorderVisible <;> simp [draw, htex, himg, hb]
    | some t =>
      cases hb : w.mBorderVisible <;>
      cases hc : env.texComponents t.id == 4 <;>
      cases hcond : (w.mShowLoadingPlaceholder && !(env.texFullyLoaded t.id)) <;>
      cases hd : ((1 < env.texDiscardLevel t.id : Bool) || godlike) <;>
      simp [draw, htex, hb, hc, hcond, hd]

/-- Helper: the dereference-checked `setValue` never produces an error value
and agrees with `setValue`. -/
theorem setValueE_ok (env : TexEnv) (v : LLSD) (w : Widget) :
    setValueE env v w = Except.ok (setValue env v w) := by
  rcases v with _ | s | u | _
  · rfl
  · cases hv : uuidValidate s with
    | true =>
      cases hn : (uuidParse s).isNull <;>
        simp [setValueE, setValue, LLSD.isString, LLSD.asString, LLSD.isUUID,
          LLSD.asUUID, UUID.notNull, hv, hn, derefTexture, getFetchedTexture]
    | false =>
      cases hreg : env.getUIImage s BoostLevel.boostUI with
      | none => simp [setValueE, setValue, LLSD.isString, LLSD.asString, LLSD.isUUID, hv, hreg]
      | some img =>
        cases hu : img.underlyingFetchedID <;>
          simp [setValueE, setValue, LLSD.isString, LLSD.asString, LLSD.isUUID, hv, hreg, hu]
  · cases hn : u.isNull <;>
      simp [setValueE, setValue, LLSD.isString, LLSD.isUUID, LLSD.asUUID, UUID.notNull,
        hn, derefTexture, getFetchedTexture]
  · rfl

/-- Helper: the dereference-checked `draw` never produces an error value and
agrees with `draw`. -/
theorem drawE_ok (env : TexEnv) (godlike : Bool) (w : Widget) :
    drawE env godlike w = Except.ok (draw env godlike w) := by
  cases htex : w.mTexturep with
  | none =>
    cases himg : w.mImagep with
    | none => simp [drawE, draw, htex, himg]
    | some img => simp [drawE, draw, htex, himg, derefImage]
  | some t =>
    cases hs : w.mShowLoadingPlaceholder <;>
    cases hf : env.texFullyLoaded t.id <;>
    by_cases hd : (1 < env.texDiscardLevel t.id ∨ godlike = true) <;>
      simp [drawE, draw, htex, hs, hf, hd, derefTexture]

/-- C9: no widget operation produces an error value: `setValue` and `draw`
with every handle dereference checked succeed on all inputs (and agree with
the unchecked operations), and the destructor releases both handles. -/
theorem widget_ops_never_fail (env : TexEnv) (godlike : Bool) (v : LLSD) (w : Widget) :
    setValueE env v w = Except.ok (setValue env v w) ∧
    drawE env godlike w = Except.ok (draw env godlike w) ∧
    (destructor w).mTexturep = none ∧ (destructor w).mImagep = none :=
  ⟨setValueE_ok env v w, drawE_ok env godlike w, rfl, rfl⟩

/-- C10: `draw` leaves the widget's value-resolution state unchanged: the
image asset identifier, the ui-image handle, the base-class stored value and
every configuration field are the same after the call, and the fetched-texture
handle is unchanged except that its known draw size is set to the working
rectangle's width and height. -/
theorem draw_preserves_value_state (env : TexEnv) (godlike : Bool) (w : Widget) :
    ((draw env godlike w).1.mImageAssetID = w.mImageAssetID) ∧
    ((draw env godlike w).1.mImagep = w.mImagep) ∧
    ((draw env godlike w).1.baseValue = w.baseValue) ∧
    ((draw env godlike w).1.mBorderColor = w.mBorderColor) ∧
    ((draw env godlike w).1.mBorderVisible = w.mBorderVisible) ∧
    ((draw env godlike w).1.mInteractable = w.mInteractable) ∧
    ((draw env godlike w).1.mShowLoadingPlaceholder = w.mShowLoadingPlaceholder) ∧
    ((draw env godlike w).1.mPriority = w.mPriority) ∧
    ((draw env godlike w).1.mLoadingPlaceholderString = w.mLoadingPlaceholderString) ∧
    ((draw env godlike w).1.rect = w.rect) ∧
    ((draw env godlike w).1.enabled = w.enabled) ∧
    ((draw env godlike w).1.mInteractable = w.mInteractable) ∧
    ((draw env godlike w).1.mTexturep = w.mTexturep.map
      (fun t => { t with knownDrawSize := some ((workRect w).getWidth, (workRect w).getHeight) })) := by
  cases htex : w.mTexturep <;> cases himg : w.mImagep <;>
    cases hb : w.mBorderVisible <;> simp [draw, htex, himg, hb]
